import Mathlib

/-!
Verification of the proposal-simulator calculation engine
(`streamlit_app.py`): panel sizing, payment-plan amortization, and the
25-year cash-flow projection with the Fio B transitional-fee phase-in.
Monetary and energy quantities are modelled over `ℚ`.
-/

/-- Fixed card surcharge (`TAXA_FIXA_CARTAO = 2286.00`). -/
def TAXA_FIXA_CARTAO : ℚ := 2286

/-- Per-grace-month financing surcharge (`CUSTO_CARENCIA_FINANC = 1350.00`). -/
def CUSTO_CARENCIA_FINANC : ℚ := 1350

/-- Annual panel degradation constant (`DEGRADACAO_PAINEL_ANUAL = 0.005`). -/
def DEGRADACAO_PAINEL_ANUAL : ℚ := 5 / 1000

/-- The Fio B phase-in table (`FIO_B_PERCENT_MAP`), year to payable percent. -/
def FIO_B_PERCENT_MAP : List (ℕ × ℚ) :=
  [(2023, 15), (2024, 30), (2025, 45), (2026, 60), (2027, 75), (2028, 90)]

/-- Python `dict.get(k, d)` over an association list. -/
def dictGetD (m : List (ℕ × ℚ)) (k : ℕ) (d : ℚ) : ℚ :=
  match m.find? (fun e => e.1 == k) with
  | some e => e.2
  | none => d

/-- `dimensionar_sistema`: returns (panel count, installed kWp, monthly kWh).
Mirrors the source: degenerate inputs give the zero triple; a positive
override replaces the recommended count verbatim. -/
def dimensionar_sistema (kwh_mensal hsp perdas_frac pot_painel_w : ℚ)
    (qtd_paineis_override : Option ℤ) : ℤ × ℚ × ℚ :=
  if kwh_mensal ≤ 0 ∨ hsp ≤ 0 ∨ pot_painel_w ≤ 0 then (0, 0, 0)
  else
    let pot_painel_kw := pot_painel_w / 1000
    let energia_por_painel_mes := pot_painel_kw * hsp * 30 * (1 - perdas_frac)
    if energia_por_painel_mes ≤ 0 then (0, 0, 0)
    else
      let qtd_calc := kwh_mensal / energia_por_painel_mes
      let qtd_recomendada : ℤ := max 1 ⌈qtd_calc⌉
      let qtd : ℤ :=
        match qtd_paineis_override with
        | some k => if 0 < k then k else qtd_recomendada
        | none => qtd_recomendada
      (qtd, (qtd : ℚ) * pot_painel_kw, (qtd : ℚ) * energia_por_painel_mes)

/-- Financing installment (`renderizar_pagamento`, "Financiamento" branch):
principal is the base cost plus `carencia` grace months of surcharge. -/
def parcela_financiamento (valor_sistema_base : ℚ) (carencia : ℕ)
    (taxa_mes : ℚ) (meses : ℕ) : ℚ :=
  let valor_financiado := valor_sistema_base + (carencia : ℚ) * CUSTO_CARENCIA_FINANC
  let i := taxa_mes / 100
  if 0 < i then (valor_financiado * i) / (1 - (1 + i) ^ (-(meses : ℤ)))
  else valor_financiado / (meses : ℚ)

/-- Total paid at the end of the financing (`valor_final = parcela_mensal * meses`). -/
def valor_final_financiamento (valor_sistema_base : ℚ) (carencia : ℕ)
    (taxa_mes : ℚ) (meses : ℕ) : ℚ :=
  parcela_financiamento valor_sistema_base carencia taxa_mes meses * (meses : ℚ)

/-- Card installment (`renderizar_pagamento`, "Cartão de crédito" branch):
principal is the base cost plus the flat card surcharge. -/
def parcela_cartao (valor_sistema_base : ℚ) (taxa_cartao : ℚ)
    (parcelas_cartao : ℕ) : ℚ :=
  let valor_com_taxa_fixa := valor_sistema_base + TAXA_FIXA_CARTAO
  let i := taxa_cartao / 100
  if 0 < i then (valor_com_taxa_fixa * i) / (1 - (1 + i) ^ (-(parcelas_cartao : ℤ)))
  else valor_com_taxa_fixa / (parcelas_cartao : ℚ)

/-- Total paid on the card (`valor_final = parcela_mensal * parcelas_cartao`). -/
def valor_final_cartao (valor_sistema_base : ℚ) (taxa_cartao : ℚ)
    (parcelas_cartao : ℕ) : ℚ :=
  parcela_cartao valor_sistema_base taxa_cartao parcelas_cartao * (parcelas_cartao : ℚ)

/-- C3: for valid inputs (positive consumption, sun hours and wattage, loss
fraction below one) and no override, the panel count is
`max 1 ⌈consumption / per_panel_energy⌉`, the capacity is `count * watts/1000`
and the monthly generation is `count * per_panel_energy`, exactly. -/
theorem dimensionar_recomendacao (kwh hsp perdas pot : ℚ)
    (h1 : 0 < kwh) (h2 : 0 < hsp) (h3 : 0 < pot) (h4 : perdas < 1) :
    dimensionar_sistema kwh hsp perdas pot none =
      (max 1 ⌈kwh / (pot / 1000 * hsp * 30 * (1 - perdas))⌉,
       (max 1 ⌈kwh / (pot / 1000 * hsp * 30 * (1 - perdas))⌉ : ℤ) * (pot / 1000),
       (max 1 ⌈kwh / (pot / 1000 * hsp * 30 * (1 - perdas))⌉ : ℤ) *
         (pot / 1000 * hsp * 30 * (1 - perdas))) := by
  have hpos : 0 < pot / 1000 * hsp * 30 * (1 - perdas) := by
    have : 0 < pot / 1000 := by positivity
    have h30 : (0:ℚ) < 30 := by norm_num
    have h1p : (0:ℚ) < 1 - perdas := by linarith
    positivity
  simp only [dimensionar_sistema]
  rw [if_neg (by push_neg; exact ⟨h1, h2, h3⟩), if_neg (not_le.mpr hpos)]

/-- Witness for C3: the spec's worked example, 800 kWh at 5 HSP, 15% losses,
650 W panels, gives 10 panels, 6.5 kWp and 828.75 kWh per month. -/
theorem dimensionar_recomendacao_witness :
    dimensionar_sistema 800 5 (15 / 100) 650 none = (10, 13 / 2, 3315 / 4) := by
  rw [dimensionar_recomendacao 800 5 (15 / 100) 650 (by norm_num) (by norm_num)
    (by norm_num) (by norm_num)]
  have hc : ⌈(800 / (650 / 1000 * 5 * 30 * (1 - 15 / 100)) : ℚ)⌉ = 10 := by
    rw [Int.ceil_eq_iff]
    constructor <;> norm_num
  rw [hc]
  norm_num

/-- C6: any degenerate sizing input (non-positive consumption, sun hours or
wattage, or non-positive per-panel energy) yields exactly the zero result,
whatever the override. -/
theorem dimensionar_degenerado_zero (kwh hsp perdas pot : ℚ) (o : Option ℤ)
    (h : kwh ≤ 0 ∨ hsp ≤ 0 ∨ pot ≤ 0 ∨ pot / 1000 * hsp * 30 * (1 - perdas) ≤ 0) :
    dimensionar_sistema kwh hsp perdas pot o = (0, 0, 0) := by
  simp only [dimensionar_sistema]
  by_cases hc : kwh ≤ 0 ∨ hsp ≤ 0 ∨ pot ≤ 0
  · rw [if_pos hc]
  · rw [if_neg hc]
    have he : pot / 1000 * hsp * 30 * (1 - perdas) ≤ 0 := by tauto
    rw [if_pos he]

/-- Witness for C6: negative consumption yields the zero triple. -/
theorem dimensionar_degenerado_zero_witness :
    dimensionar_sistema (-5) 5 (15 / 100) 650 none = (0, 0, 0) :=
  dimensionar_degenerado_zero (-5) 5 (15 / 100) 650 none (Or.inl (by norm_num))

/-- C7: with valid inputs, a positive override `k` is returned verbatim as the
panel count, and capacity and generation scale linearly from `k`. -/
theorem dimensionar_override_positivo (kwh hsp perdas pot : ℚ) (k : ℤ)
    (h1 : 0 < kwh) (h2 : 0 < hsp) (h3 : 0 < pot) (h4 : perdas < 1) (hk : 0 < k) :
    dimensionar_sistema kwh hsp perdas pot (some k) =
      (k, (k : ℚ) * (pot / 1000), (k : ℚ) * (pot / 1000 * hsp * 30 * (1 - perdas))) := by
  have hpos : 0 < pot / 1000 * hsp * 30 * (1 - perdas) := by
    have : 0 < pot / 1000 := by positivity
    have h30 : (0:ℚ) < 30 := by norm_num
    have h1p : (0:ℚ) < 1 - perdas := by linarith
    positivity
  simp only [dimensionar_sistema]
  rw [if_neg (by push_neg; exact ⟨h1, h2, h3⟩), if_neg (not_le.mpr hpos)]
  simp only [if_pos hk]

/-- Witness for C7: overriding with 3 panels (under the recommendation of 10)
returns exactly 3 panels. -/
theorem dimensionar_override_positivo_witness :
    dimensionar_sistema 800 5 (15 / 100) 650 (some 3) = (3, 3 * (650 / 1000 : ℚ),
      3 * (650 / 1000 * 5 * 30 * (1 - 15 / 100) : ℚ)) := by
  rw [dimensionar_override_positivo 800 5 (15 / 100) 650 3 (by norm_num) (by norm_num)
    (by norm_num) (by norm_num) (by norm_num)]
  norm_num

/-- C10: with valid inputs, a supplied but non-positive override is silently
ignored: the call returns exactly the no-override (recommended) result, whose
count is `max 1 ⌈consumption / per_panel_energy⌉`. -/
theorem dimensionar_override_ignorado (kwh hsp perdas pot : ℚ) (k : ℤ)
    (h1 : 0 < kwh) (h2 : 0 < hsp) (h3 : 0 < pot) (h4 : perdas < 1) (hk : k ≤ 0) :
    dimensionar_sistema kwh hsp perdas pot (some k) =
        dimensionar_sistema kwh hsp perdas pot none ∧
      (dimensionar_sistema kwh hsp perdas pot (some k)).1 =
        max 1 ⌈kwh / (pot / 1000 * hsp * 30 * (1 - perdas))⌉ := by
  have hpos : 0 < pot / 1000 * hsp * 30 * (1 - perdas) := by
    have : 0 < pot / 1000 := by positivity
    have h30 : (0:ℚ) < 30 := by norm_num
    have h1p : (0:ℚ) < 1 - perdas := by linarith
    positivity
  have hc : ¬(kwh ≤ 0 ∨ hsp ≤ 0 ∨ pot ≤ 0) := by push_neg; exact ⟨h1, h2, h3⟩
  have he : ¬(pot / 1000 * hsp * 30 * (1 - perdas) ≤ 0) := not_le.mpr hpos
  constructor <;>
    simp only [dimensionar_sistema, if_neg hc, if_neg he, if_neg (not_lt.mpr hk)]

/-- Witness for C10: an override of 0 is ignored and the recommended count 10
is returned. -/
theorem dimensionar_override_ignorado_witness :
    dimensionar_sistema 800 5 (15 / 100) 650 (some 0) =
        dimensionar_sistema 800 5 (15 / 100) 650 none ∧
      (dimensionar_sistema 800 5 (15 / 100) 650 (some 0)).1 = 10 := by
  have h := dimensionar_override_ignorado 800 5 (15 / 100) 650 0 (by norm_num)
    (by norm_num) (by norm_num) (by norm_num) (by norm_num)
  refine ⟨h.1, ?_⟩
  rw [h.2]
  have hc : ⌈(800 / (650 / 1000 * 5 * 30 * (1 - 15 / 100)) : ℚ)⌉ = 10 := by
    rw [Int.ceil_eq_iff]
    constructor <;> norm_num
  rw [hc]
  norm_num

/-- C4: for a positive period count, both payment parameterizations compute
the standard fixed-payment amortization `P * i / (1 - (1+i)^(-n))` when the
per-period rate `i = taxa/100` is positive, and `P / n` when the rate is zero;
the effective principals are base cost plus `carencia * 1350` (financing) and
base cost plus the flat 2286 surcharge (card); the final total paid is
`installment * n` in both cases. -/
theorem amortizacao_parcelas (base : ℚ) (carencia : ℕ) (taxa : ℚ) (n : ℕ)
    (hn : 0 < n) :
    (0 < taxa / 100 →
        parcela_financiamento base carencia taxa n =
          ((base + (carencia : ℚ) * CUSTO_CARENCIA_FINANC) * (taxa / 100)) /
            (1 - (1 + taxa / 100) ^ (-(n : ℤ))) ∧
        parcela_cartao base taxa n =
          ((base + TAXA_FIXA_CARTAO) * (taxa / 100)) /
            (1 - (1 + taxa / 100) ^ (-(n : ℤ)))) ∧
    (taxa / 100 = 0 →
        parcela_financiamento base carencia taxa n =
          (base + (carencia : ℚ) * CUSTO_CARENCIA_FINANC) / (n : ℚ) ∧
        parcela_cartao base taxa n = (base + TAXA_FIXA_CARTAO) / (n : ℚ)) ∧
    valor_final_financiamento base carencia taxa n =
        parcela_financiamento base carencia taxa n * (n : ℚ) ∧
    valor_final_cartao base taxa n = parcela_cartao base taxa n * (n : ℚ) := by
  refine ⟨fun hi => ?_, fun hi => ?_, rfl, rfl⟩
  · constructor
    · simp only [parcela_financiamento, if_pos hi]
    · simp only [parcela_cartao, if_pos hi]
  · constructor
    · simp only [parcela_financiamento, hi, if_neg (lt_irrefl (0:ℚ)), hi]
    · simp only [parcela_cartao, hi, if_neg (lt_irrefl (0:ℚ)), hi]

/-- Witness for C4: at zero interest, financing 1000 with 2 grace months over
10 periods gives the straight-line installment (1000 + 2700)/10 = 370. -/
theorem amortizacao_parcelas_witness :
    parcela_financiamento 1000 2 0 10 = 370 := by
  have h := ((amortizacao_parcelas 1000 2 0 10 (by norm_num)).2.1 (by norm_num)).1
  rw [h]
  norm_num [CUSTO_CARENCIA_FINANC]

/-- Input record of `calcular_fluxo_caixa` (all called per projection year). -/
structure FluxoParams where
  valor_final_investimento : ℚ
  kwh_mensal_consumo : ℚ
  tarifa_kwh_inicial : ℚ
  geracao_mensal_inicial : ℚ
  autoconsumo_percent : ℚ
  fracao_fio_b_percent : ℚ
  ano_inicio_projeto : ℕ
  inflacao_energia : ℚ
  degradacao_anual : ℚ
  kwh_minimo_disponibilidade : ℚ
  taxa_iluminacao_publica : ℚ
deriving DecidableEq

/-- Calendar year for the 1-based projection year (`ano_inicio_projeto + (ano - 1)`). -/
def ano_calendario (p : FluxoParams) (ano : ℕ) : ℕ :=
  p.ano_inicio_projeto + (ano - 1)

/-- `FIO_B_PERCENT_MAP.get(ano_calendario, 100.0)`. -/
def percent_fio_b_a_pagar (p : FluxoParams) (ano : ℕ) : ℚ :=
  dictGetD FIO_B_PERCENT_MAP (ano_calendario p ano) 100

/-- Inflated tariff for year `ano`: `tarifa_kwh_inicial * (1+inflacao)^(ano-1)`. -/
def tarifa_kwh_inflacionada (p : FluxoParams) (ano : ℕ) : ℚ :=
  p.tarifa_kwh_inicial * (1 + p.inflacao_energia) ^ (ano - 1)

/-- Inflated public-lighting fee for year `ano` (same compounding factor). -/
def taxa_iluminacao_inflacionada (p : FluxoParams) (ano : ℕ) : ℚ :=
  p.taxa_iluminacao_publica * (1 + p.inflacao_energia) ^ (ano - 1)

/-- Degraded monthly generation for year `ano`. -/
def geracao_mensal_degradada (p : FluxoParams) (ano : ℕ) : ℚ :=
  p.geracao_mensal_inicial * (1 - p.degradacao_anual) ^ (ano - 1)

/-- Baseline annual spend without solar for year `ano`. -/
def gasto_anual_sem_solar (p : FluxoParams) (ano : ℕ) : ℚ :=
  p.kwh_mensal_consumo * 12 * tarifa_kwh_inflacionada p ano +
    taxa_iluminacao_inflacionada p ano * 12

/-- Monthly energy exported to the grid in year `ano`. -/
def energia_excedente (p : FluxoParams) (ano : ℕ) : ℚ :=
  geracao_mensal_degradada p ano * (1 - p.autoconsumo_percent / 100)

/-- Estimated Fio B tariff slice (`tarifa_inflacionada * fracao_fio_b/100`). -/
def valor_tarifa_fio_b_estimado_kwh (p : FluxoParams) (ano : ℕ) : ℚ :=
  tarifa_kwh_inflacionada p ano * (p.fracao_fio_b_percent / 100)

/-- Annual Fio B transitional-fee cost for year `ano`. -/
def custo_fio_b_anual (p : FluxoParams) (ano : ℕ) : ℚ :=
  energia_excedente p ano * valor_tarifa_fio_b_estimado_kwh p ano *
    (percent_fio_b_a_pagar p ano / 100) * 12

/-- Annual minimum-availability cost for year `ano`. -/
def custo_disponibilidade_anual (p : FluxoParams) (ano : ℕ) : ℚ :=
  p.kwh_minimo_disponibilidade * tarifa_kwh_inflacionada p ano * 12

/-- New annual spend with solar for year `ano`. -/
def gasto_novo_anual (p : FluxoParams) (ano : ℕ) : ℚ :=
  custo_fio_b_anual p ano + custo_disponibilidade_anual p ano +
    taxa_iluminacao_inflacionada p ano * 12

/-- Net annual saving for year `ano`, floored at zero. -/
def economia_liquida_anual (p : FluxoParams) (ano : ℕ) : ℚ :=
  max 0 (gasto_anual_sem_solar p ano - gasto_novo_anual p ano)

/-- Accumulated without-solar spend after `ano` years (loop accumulator
`gasto_acumulado_sem_solar`, starting at 0). -/
def gasto_acumulado_sem_solar (p : FluxoParams) : ℕ → ℚ
  | 0 => 0
  | n + 1 => gasto_acumulado_sem_solar p n + gasto_anual_sem_solar p (n + 1)

/-- Accumulated with-solar cash flow after `ano` years (loop accumulator
`fluxo_acumulado_com_solar`, starting at `-valor_final_investimento`). -/
def fluxo_acumulado_com_solar (p : FluxoParams) : ℕ → ℚ
  | 0 => -p.valor_final_investimento
  | n + 1 => fluxo_acumulado_com_solar p n + economia_liquida_anual p (n + 1)

/-- `calcular_fluxo_caixa`: the ordered year-by-year projection rows
(year, accumulated spend without solar, accumulated cash flow with solar). -/
def calcular_fluxo_caixa (p : FluxoParams) (anos : ℕ) : List (ℕ × ℚ × ℚ) :=
  (List.range anos).map
    (fun k => (k + 1, gasto_acumulado_sem_solar p (k + 1), fluxo_acumulado_com_solar p (k + 1)))

/-- The Fio B table has no entry for years past 2028, so the default applies. -/
theorem fio_b_dict_alem_da_tabela (y : ℕ) (hy : 2028 < y) :
    dictGetD FIO_B_PERCENT_MAP y 100 = 100 := by
  have h1 : ((2023 : ℕ) == y) = false := by simp only [beq_eq_false_iff_ne]; omega
  have h2 : ((2024 : ℕ) == y) = false := by simp only [beq_eq_false_iff_ne]; omega
  have h3 : ((2025 : ℕ) == y) = false := by simp only [beq_eq_false_iff_ne]; omega
  have h4 : ((2026 : ℕ) == y) = false := by simp only [beq_eq_false_iff_ne]; omega
  have h5 : ((2027 : ℕ) == y) = false := by simp only [beq_eq_false_iff_ne]; omega
  have h6 : ((2028 : ℕ) == y) = false := by simp only [beq_eq_false_iff_ne]; omega
  simp only [dictGetD, FIO_B_PERCENT_MAP, List.find?, h1, h2, h3, h4, h5, h6]

/-- Concrete projection parameters starting exactly at the table's last
explicit year, 2028. -/
def pContraC1 : FluxoParams := ⟨0, 0, 0, 0, 0, 0, 2028, 0, 0, 0, 0⟩

/-- C1 counterexample: a projection whose `start_year` is 2028 — at the last
explicit table year — uses 90%, not 100%, as year 1's payable percentage. -/
theorem fio_b_2028_contraexemplo :
    percent_fio_b_a_pagar pContraC1 1 = 90 ∧ percent_fio_b_a_pagar pContraC1 1 ≠ 100 := by
  constructor
  · rfl
  · intro h
    rw [show percent_fio_b_a_pagar pContraC1 1 = 90 from rfl] at h
    norm_num at h

/-- C1 (amended): for every projection whose `start_year` is strictly beyond
the last explicit table year (2028), the payable percentage resolves to 100%
for every projected year. -/
theorem fio_b_alem_tabela_cem (p : FluxoParams) (ano : ℕ)
    (hstart : 2028 < p.ano_inicio_projeto) :
    percent_fio_b_a_pagar p ano = 100 := by
  unfold percent_fio_b_a_pagar
  exact fio_b_dict_alem_da_tabela _ (by unfold ano_calendario; omega)

/-- Concrete projection parameters starting at 2029. -/
def pTesteC1 : FluxoParams := ⟨0, 0, 0, 0, 0, 0, 2029, 0, 0, 0, 0⟩

/-- Witness for C1 (amended): a 2029 start resolves year 5 to 100%. -/
theorem fio_b_alem_tabela_cem_witness : percent_fio_b_a_pagar pTesteC1 5 = 100 :=
  fio_b_alem_tabela_cem pTesteC1 5 (by norm_num [pTesteC1])

/-- C5: the accumulated with-solar cash flow starts at minus the initial
outlay; each year adds that year's net saving, which is
`max 0 (baseline - new)`; hence no increment is negative and the series is
monotonically non-decreasing. -/
theorem fluxo_acumulado_nao_decrescente (p : FluxoParams) :
    fluxo_acumulado_com_solar p 0 = -p.valor_final_investimento ∧
    (∀ n : ℕ, fluxo_acumulado_com_solar p (n + 1) =
        fluxo_acumulado_com_solar p n + economia_liquida_anual p (n + 1)) ∧
    (∀ n : ℕ, economia_liquida_anual p (n + 1) =
        max 0 (gasto_anual_sem_solar p (n + 1) - gasto_novo_anual p (n + 1))) ∧
    (∀ n : ℕ, 0 ≤ economia_liquida_anual p (n + 1)) ∧
    (∀ n : ℕ, fluxo_acumulado_com_solar p n ≤ fluxo_acumulado_com_solar p (n + 1)) := by
  refine ⟨rfl, fun n => rfl, fun n => rfl, fun n => le_max_left 0 _, fun n => ?_⟩
  have h : 0 ≤ economia_liquida_anual p (n + 1) := le_max_left 0 _
  calc fluxo_acumulado_com_solar p n
      ≤ fluxo_acumulado_com_solar p n + economia_liquida_anual p (n + 1) := by linarith
    _ = fluxo_acumulado_com_solar p (n + 1) := rfl

/-- C8: the annual transitional-fee cost is exactly
`exported * (tariff_y * wire_fee_fraction/100) * (payable/100) * 12`, where
`exported = generation_y * (1 - self_consumption/100)`; at 100%
self-consumption both the exported energy and the fee cost vanish. -/
theorem custo_fio_b_formula (p : FluxoParams) (ano : ℕ) :
    custo_fio_b_anual p ano =
        energia_excedente p ano *
          (tarifa_kwh_inflacionada p ano * (p.fracao_fio_b_percent / 100)) *
          (percent_fio_b_a_pagar p ano / 100) * 12 ∧
    energia_excedente p ano =
        geracao_mensal_degradada p ano * (1 - p.autoconsumo_percent / 100) ∧
    (p.autoconsumo_percent = 100 →
        energia_excedente p ano = 0 ∧ custo_fio_b_anual p ano = 0) := by
  refine ⟨rfl, rfl, fun h => ?_⟩
  have hz : energia_excedente p ano = 0 := by
    unfold energia_excedente
    rw [h]
    norm_num
  refine ⟨hz, ?_⟩
  unfold custo_fio_b_anual
  rw [hz]
  ring

/-- Concrete projection parameters with 100% self-consumption. -/
def pTesteC8 : FluxoParams := ⟨0, 0, 1, 500, 100, 28, 2024, 0, 0, 0, 0⟩

/-- Witness for C8: at 100% self-consumption the year-3 fee cost is zero. -/
theorem custo_fio_b_formula_witness :
    energia_excedente pTesteC8 3 = 0 ∧ custo_fio_b_anual pTesteC8 3 = 0 :=
  (custo_fio_b_formula pTesteC8 3).2.2 rfl

/-- Concrete projection parameters with a positive tariff but zero consumption
and zero lighting fee. -/
def pContraC9 : FluxoParams := ⟨0, 0, 1, 0, 0, 0, 2030, 0, 0, 0, 0⟩

/-- C9 counterexample: with tariff 1 > 0 but zero monthly consumption and zero
lighting fee, the without-solar accumulated series stalls at 0 between years 1
and 2 — it is not strictly increasing for every positive tariff. -/
theorem gasto_sem_solar_contraexemplo :
    0 < pContraC9.tarifa_kwh_inicial ∧
    gasto_acumulado_sem_solar pContraC9 1 = gasto_acumulado_sem_solar pContraC9 2 ∧
    ¬(gasto_acumulado_sem_solar pContraC9 1 < gasto_acumulado_sem_solar pContraC9 2) := by
  have h : gasto_acumulado_sem_solar pContraC9 1 = gasto_acumulado_sem_solar pContraC9 2 := by
    show (0 : ℚ) + gasto_anual_sem_solar pContraC9 1 =
      0 + gasto_anual_sem_solar pContraC9 1 + gasto_anual_sem_solar pContraC9 2
    have h1 : gasto_anual_sem_solar pContraC9 1 = 0 := by
      unfold gasto_anual_sem_solar tarifa_kwh_inflacionada taxa_iluminacao_inflacionada pContraC9
      norm_num
    have h2 : gasto_anual_sem_solar pContraC9 2 = 0 := by
      unfold gasto_anual_sem_solar tarifa_kwh_inflacionada taxa_iluminacao_inflacionada pContraC9
      norm_num
    rw [h1, h2]
    norm_num
  exact ⟨by norm_num [pContraC9], h, by rw [h]; exact lt_irrefl _⟩

/-- C9 (amended): with a positive initial tariff, positive monthly
consumption, non-negative lighting fee and inflation above -100%, every year's
baseline annual spend is strictly positive, so the without-solar accumulated
series is strictly increasing year-over-year. -/
theorem gasto_sem_solar_crescente (p : FluxoParams)
    (ht : 0 < p.tarifa_kwh_inicial) (hk : 0 < p.kwh_mensal_consumo)
    (hi : -1 < p.inflacao_energia) (hta : 0 ≤ p.taxa_iluminacao_publica) :
    ∀ n : ℕ, 0 < gasto_anual_sem_solar p (n + 1) ∧
      gasto_acumulado_sem_solar p n < gasto_acumulado_sem_solar p (n + 1) := by
  intro n
  have hpow : 0 < (1 + p.inflacao_energia) ^ (n + 1 - 1) := pow_pos (by linarith) _
  have h1 : 0 < p.kwh_mensal_consumo * 12 * tarifa_kwh_inflacionada p (n + 1) := by
    unfold tarifa_kwh_inflacionada
    have := mul_pos ht hpow
    have hk12 : 0 < p.kwh_mensal_consumo * 12 := by linarith
    exact mul_pos hk12 this
  have h2 : 0 ≤ taxa_iluminacao_inflacionada p (n + 1) * 12 := by
    unfold taxa_iluminacao_inflacionada
    have := mul_nonneg hta hpow.le
    linarith
  have hpos : 0 < gasto_anual_sem_solar p (n + 1) := by
    unfold gasto_anual_sem_solar
    linarith
  refine ⟨hpos, ?_⟩
  show gasto_acumulado_sem_solar p n <
    gasto_acumulado_sem_solar p n + gasto_anual_sem_solar p (n + 1)
  linarith

/-- Concrete projection parameters with positive tariff and consumption. -/
def pTesteC9 : FluxoParams := ⟨0, 1, 1, 0, 0, 0, 2030, 0, 0, 0, 0⟩

/-- Witness for C9 (amended): year 1 strictly increases the accumulated
baseline spend for unit tariff and consumption. -/
theorem gasto_sem_solar_crescente_witness :
    0 < gasto_anual_sem_solar pTesteC9 1 ∧
      gasto_acumulado_sem_solar pTesteC9 0 < gasto_acumulado_sem_solar pTesteC9 1 :=
  gasto_sem_solar_crescente pTesteC9 (by norm_num [pTesteC9]) (by norm_num [pTesteC9])
    (by norm_num [pTesteC9]) (by norm_num [pTesteC9]) 0

/-- Python 3 `round` to an integer on exact rationals: round half to even. -/
def pyRound (q : ℚ) : ℤ :=
  let f := ⌊q⌋
  if q - f < 1 / 2 then f
  else if 1 / 2 < q - f then f + 1
  else if f % 2 = 0 then f else f + 1

/-- The three shapes of the payback summary label: "+ 25 anos",
"~ N meses", and "Ano N". -/
inductive PaybackLabel where
  | alemHorizonte : PaybackLabel
  | meses : ℤ → PaybackLabel
  | anoInteiro : ℕ → PaybackLabel
deriving DecidableEq

/-- Payback derivation of `renderizar_projecao_financeira`: the first
projection year with positive accumulated cash flow; interpolated months
within that year (against the initial outlay for year 1), or the whole-year
label when the year's gain is not positive, or the beyond-horizon label when
the series never turns positive. -/
def payback (p : FluxoParams) (anos : ℕ) : PaybackLabel :=
  match (List.range anos).find? (fun k => decide (0 < fluxo_acumulado_com_solar p (k + 1))) with
  | none => PaybackLabel.alemHorizonte
  | some k =>
      let ano := k + 1
      if ano = 1 then
        let valor_inicial := -p.valor_final_investimento
        let ganho_no_ano := fluxo_acumulado_com_solar p 1 - valor_inicial
        if 0 < ganho_no_ano then
          PaybackLabel.meses (max 1 (pyRound (|valor_inicial| / ganho_no_ano * 12)))
        else PaybackLabel.anoInteiro 1
      else
        let valor_final_ano_anterior := fluxo_acumulado_com_solar p (ano - 1)
        let ganho_no_ano := fluxo_acumulado_com_solar p ano - valor_final_ano_anterior
        if 0 < ganho_no_ano then
          PaybackLabel.meses
            (((ano : ℤ) - 1) * 12 + pyRound (|valor_final_ano_anterior| / ganho_no_ano * 12))
        else PaybackLabel.anoInteiro ano

/-- `List.find?` over `range n` returns the least index satisfying the
predicate. -/
theorem range_find_min (q : ℕ → Bool) (n i : ℕ) (hin : i < n) (hq : q i = true)
    (hmin : ∀ j, j < i → q j = false) : (List.range n).find? q = some i := by
  induction n generalizing q i with
  | zero => omega
  | succ m ih =>
    rw [List.range_succ_eq_map]
    cases i with
    | zero => exact List.find?_cons_of_pos _ hq
    | succ j =>
      have h0 : ¬(q 0 = true) := by rw [hmin 0 (Nat.succ_pos j)]; simp
      rw [List.find?_cons_of_neg _ h0, List.find?_map]
      rw [ih (q ∘ Nat.succ) j (by omega) hq (fun j' hj' => hmin (j' + 1) (by omega))]
      rfl

/-- C2: the payback label is derived from the projection as follows: the
payback year is the first year whose accumulated cash flow is positive; if no
year in the horizon is positive the beyond-horizon label results; in the
crossing year, when its net gain is positive, the label is the month count
`(payback_year - 1) * 12` plus the rounded `|previous_accumulation| / gain * 12`
(for year 1, interpolated against the initial outlay, floored at one month);
when the crossing year's gain is not positive the whole-year label results. -/
theorem payback_caracterizacao (p : FluxoParams) (anos : ℕ) :
    ((∀ k, 1 ≤ k → k ≤ anos → fluxo_acumulado_com_solar p k ≤ 0) →
        payback p anos = PaybackLabel.alemHorizonte) ∧
    (∀ y, 1 ≤ y → y ≤ anos → 0 < fluxo_acumulado_com_solar p y →
      (∀ k, 1 ≤ k → k < y → fluxo_acumulado_com_solar p k ≤ 0) →
      ((y = 1 →
          ((0 < fluxo_acumulado_com_solar p 1 - -p.valor_final_investimento →
              payback p anos = PaybackLabel.meses (max 1 (pyRound
                (|-p.valor_final_investimento| /
                  (fluxo_acumulado_com_solar p 1 - -p.valor_final_investimento) * 12)))) ∧
           (fluxo_acumulado_com_solar p 1 - -p.valor_final_investimento ≤ 0 →
              payback p anos = PaybackLabel.anoInteiro 1))) ∧
       (1 < y →
          ((0 < fluxo_acumulado_com_solar p y - fluxo_acumulado_com_solar p (y - 1) →
              payback p anos = PaybackLabel.meses (((y : ℤ) - 1) * 12 + pyRound
                (|fluxo_acumulado_com_solar p (y - 1)| /
                  (fluxo_acumulado_com_solar p y - fluxo_acumulado_com_solar p (y - 1)) * 12))) ∧
           (fluxo_acumulado_com_solar p y - fluxo_acumulado_com_solar p (y - 1) ≤ 0 →
              payback p anos = PaybackLabel.anoInteiro y))))) := by
  constructor
  · intro hall
    have hnone : (List.range anos).find?
        (fun k => decide (0 < fluxo_acumulado_com_solar p (k + 1))) = none := by
      rw [List.find?_eq_none]
      intro x hx
      simp only [decide_eq_true_eq]
      exact not_lt.mpr (hall (x + 1) (by omega) (by have := List.mem_range.mp hx; omega))
    simp only [payback, hnone]
  · intro y hy1 hy2 hpos hmin
    have hfind : (List.range anos).find?
        (fun k => decide (0 < fluxo_acumulado_com_solar p (k + 1))) = some (y - 1) := by
      apply range_find_min _ anos (y - 1) (by omega)
      · simp only [decide_eq_true_eq]
        rw [show y - 1 + 1 = y from by omega]
        exact hpos
      · intro j hj
        simp only [decide_eq_false_iff_not]
        exact not_lt.mpr (hmin (j + 1) (by omega) (by omega))
    constructor
    · intro hy_eq
      subst hy_eq
      simp only [payback, hfind]
      simp only [if_true]
      constructor
      · intro hg
        rw [if_pos hg]
      · intro hg
        rw [if_neg (not_lt.mpr hg)]
    · intro hy_gt
      simp only [payback, hfind]
      rw [show y - 1 + 1 = y from by omega]
      rw [if_neg (by omega : ¬ y = 1)]
      constructor
      · intro hg
        rw [if_pos hg]
      · intro hg
        rw [if_neg (not_lt.mpr hg)]

/-- Concrete projection parameters: outlay 100, yearly saving 60 (consumption
5 kWh at tariff 1, full self-consumption, no fees), no inflation. -/
def pTesteC2 : FluxoParams := ⟨100, 5, 1, 0, 100, 0, 2030, 0, 0, 0, 0⟩

/-- Witness for C2: the accumulated flow is -40 after year 1 and 20 after
year 2, so the payback label is 12 + round(40/60*12) = 20 months. -/
theorem payback_caracterizacao_witness :
    payback pTesteC2 25 = PaybackLabel.meses 20 := by
  have hF1 : fluxo_acumulado_com_solar pTesteC2 1 = -40 := by
    simp [fluxo_acumulado_com_solar, economia_liquida_anual, gasto_anual_sem_solar,
      gasto_novo_anual, custo_fio_b_anual, custo_disponibilidade_anual, energia_excedente,
      geracao_mensal_degradada, valor_tarifa_fio_b_estimado_kwh, tarifa_kwh_inflacionada,
      taxa_iluminacao_inflacionada, pTesteC2]
    norm_num
  have hF2 : fluxo_acumulado_com_solar pTesteC2 2 = 20 := by
    simp [fluxo_acumulado_com_solar, economia_liquida_anual, gasto_anual_sem_solar,
      gasto_novo_anual, custo_fio_b_anual, custo_disponibilidade_anual, energia_excedente,
      geracao_mensal_degradada, valor_tarifa_fio_b_estimado_kwh, tarifa_kwh_inflacionada,
      taxa_iluminacao_inflacionada, pTesteC2]
    norm_num
  have h := ((payback_caracterizacao pTesteC2 25).2 2 (by norm_num) (by norm_num)
    (by rw [hF2]; norm_num)
    (fun k hk1 hk2 => by
      have hk : k = 1 := by omega
      subst hk
      rw [hF1]
      norm_num)).2 (by norm_num)
  rw [h.1 (by rw [hF1, hF2]; norm_num), hF1, hF2]
  have hr : pyRound (|(-40 : ℚ)| / (20 - -40) * 12) = 8 := by
    have : (|(-40 : ℚ)| / (20 - -40) * 12) = 8 := by norm_num
    rw [this]
    unfold pyRound
    norm_num
  rw [hr]
  norm_num
